import Mathlib

/-!
# Verification of the VidMod timeline/compositing core

Shallow embedding of the frame-arithmetic, tracking, splicing, normalization,
masked-compositing and frame-extraction logic of the VidMod repository
(`src/core/tracker.py`, `src/core/video_builder.py`,
`src/core/frame_extractor.py`), together with theorems settling the frozen
claims about the natural-language specification.

External media I/O (OpenCV image loads, tracker updates, subprocess
invocations of the media backend) is modelled by explicit environments: a
record of oracles giving the outcome of each external call.  Python floats
are modelled as rationals; Python `int(...)` truncation is modelled by
`pyInt`.
-/

namespace VidMod

/-- Python `int(q)`: truncation of a real toward zero. -/
def pyInt (q : ℚ) : Int := if q < 0 then -(⌊-q⌋) else ⌊q⌋

/-! ## Region tracker (`src/core/tracker.py`, `ObjectTracker.track_finding`)

The tracker walks frames `start_idx+1 .. end_idx`, sampling every
`skip_rate`-th offset (and always the end frame), calling `cv2.imread` and
`tracker.update` on each sampled frame.  Those two external calls are
abstracted by a `TrackEnv` oracle indexed by frame number. -/

/-- Outcome of the external calls made per frame: whether `cv2.imread`
returns an image (`loadOk`), what `tracker.update` returns (`update`:
`some (x, y, w, h)` tracked pixel box on success, `none` on failure), and
the pixel dimensions of the first loaded frame (`imgW`, `imgH`). -/
structure TrackEnv where
  loadOk : Nat → Bool
  update : Nat → Option (ℚ × ℚ × ℚ × ℚ)
  imgW : Nat
  imgH : Nat

/-- A finding as consumed by `track_finding`: optional seed box (percentage
coordinates) and a time range in seconds. -/
structure SeedBox where
  top : ℚ
  left : ℚ
  width : ℚ
  height : ℚ
deriving DecidableEq, Repr

structure Finding where
  box : Option SeedBox
  startTime : ℚ
  endTime : ℚ

/-- One entry of the tracked path: frame index plus percentage box. -/
structure PathEntry where
  frame : Nat
  top : ℚ
  left : ℚ
  width : ℚ
  height : ℚ
deriving DecidableEq, Repr

/-- `start_idx = max(0, min(int(start_time*fps), len(frame_paths)-1))`. -/
def startIdx (startTime fps : ℚ) (numFrames : Nat) : Nat :=
  (max 0 (min (pyInt (startTime * fps)) ((numFrames : Int) - 1))).toNat

/-- `end_idx = max(start_idx, min(int(end_time*fps), len(frame_paths)-1))`. -/
def endIdx (startTime endTime fps : ℚ) (numFrames : Nat) : Nat :=
  (max ((startIdx startTime fps numFrames : Nat) : Int)
    (min (pyInt (endTime * fps)) ((numFrames : Int) - 1))).toNat

/-- `skip_rate = max(1, total_frames_in_range // target_points)` with
`target_points = 100`. -/
def skipRate (start_idx end_idx : Nat) : Nat :=
  max 1 ((end_idx - start_idx) / 100)

/-- Width of the (possibly downscaled) tracking frame: `640` when the source
width exceeds the 640-pixel working threshold, else the source width. -/
def trackW (w : Nat) : Nat := if 640 < w then 640 else w

/-- Height of the tracking frame: `int(h * scale)` with `scale = 640/w` when
downscaled, else the source height. -/
def trackH (w h : Nat) : Nat :=
  if 640 < w then (pyInt ((h : ℚ) * (640 / (w : ℚ)))).toNat else h

/-- The tracking loop over frames `i, i+1, ...` with `fuel` indices left
(`fuel = end_idx + 1 - i` at entry).  Mirrors
`for i in range(start_idx + 1, end_idx + 1)` of `track_finding`: an index is
skipped unless `(i - start_idx) % skip_rate == 0` or `i == end_idx`; a frame
whose load fails is skipped (`continue`); a successful tracker update appends
a percentage-coordinate entry; a failed update breaks out of the loop. -/
def trackLoopFrom (env : TrackEnv) (start_idx end_idx skip tw th : Nat) :
    Nat → Nat → List PathEntry
  | _, 0 => []
  | i, fuel + 1 =>
    if (i - start_idx) % skip ≠ 0 ∧ i ≠ end_idx then
      trackLoopFrom env start_idx end_idx skip tw th (i + 1) fuel
    else if env.loadOk i = false then
      trackLoopFrom env start_idx end_idx skip tw th (i + 1) fuel
    else
      match env.update i with
      | some (tx, ty, twd, thd) =>
        { frame := i, top := ty / (th : ℚ) * 100, left := tx / (tw : ℚ) * 100,
          width := twd / (tw : ℚ) * 100, height := thd / (th : ℚ) * 100 } ::
          trackLoopFrom env start_idx end_idx skip tw th (i + 1) fuel
      | none => []

/-- `ObjectTracker.track_finding`.  Returns `.error` for the uncaught
`IndexError` raised when `frame_paths` is empty (the clamped index still
hits `frame_paths[start_idx]`); returns `.ok []` when the finding has no
seed box or the first frame fails to load; otherwise the seed entry followed
by the loop's entries. -/
def track_finding (env : TrackEnv) (finding : Finding) (numFrames : Nat)
    (fps : ℚ) : Except String (List PathEntry) :=
  match finding.box with
  | none => .ok []
  | some seed =>
    if startIdx finding.startTime fps numFrames < numFrames then
      if env.loadOk (startIdx finding.startTime fps numFrames) then
        .ok ({ frame := startIdx finding.startTime fps numFrames,
               top := seed.top, left := seed.left,
               width := seed.width, height := seed.height } ::
          trackLoopFrom env (startIdx finding.startTime fps numFrames)
            (endIdx finding.startTime finding.endTime fps numFrames)
            (skipRate (startIdx finding.startTime fps numFrames)
              (endIdx finding.startTime finding.endTime fps numFrames))
            (trackW env.imgW) (trackH env.imgW env.imgH)
            (startIdx finding.startTime fps numFrames + 1)
            (endIdx finding.startTime finding.endTime fps numFrames -
              startIdx finding.startTime fps numFrames))
      else .ok []
    else .error "IndexError: list index out of range"

/-! ## Stream inspection and backend-failure behaviour
(`src/core/video_builder.py`, `src/core/frame_extractor.py`)

Each backend (ffmpeg/ffprobe) invocation is modelled by its outcome: an
`Except String α` value whose `.error` carries the captured diagnostic
text (stderr). -/

/-- `VideoBuilder.get_video_fps`: probe the frame rate with ffprobe.  The
`probe` argument is the combined outcome of running ffprobe and parsing its
stdout (`"30/1"` or `"30"`): `.ok fps` on success, `.error` on any failure.
The Python code wraps the call and the parse in
`try: ... except Exception: return 30.0`, so every failure yields the
default 30.0 instead of an error. -/
def get_video_fps (probe : Except String ℚ) : ℚ :=
  match probe with
  | .ok fps => fps
  | .error _ => 30

/-- `FrameExtractor.extract_audio`: returns `None` when the container has no
audio track, and — because the `CalledProcessError` handler returns `None` —
also when the ffmpeg invocation fails. -/
def extract_audio (hasAudio : Bool) (outputPath : String)
    (cmdResult : Except String Unit) : Option String :=
  if hasAudio = false then none
  else
    match cmdResult with
    | .ok _ => some outputPath
    | .error _ => none

/-- `FrameExtractor.extract_single_frame`: a representative surfaced
failure — a backend error is re-raised as `RuntimeError` with the stderr
text attached. -/
def extract_single_frame (outputPath : String)
    (cmdResult : Except String Unit) : Except String String :=
  match cmdResult with
  | .ok _ => .ok outputPath
  | .error stderr => .error ("Failed to extract frame: " ++ stderr)

/-! ## Frame-rate/resolution normalizer
(`VideoBuilder.normalize_video_fps`) -/

/-- The scale-and-pad (letterbox) video filter added when a target
resolution is supplied, exactly as built by `normalize_video_fps`. -/
def letterboxFilter (width height : Nat) : String :=
  "scale=" ++ toString width ++ ":" ++ toString height ++
    ":force_original_aspect_ratio=decrease,pad=" ++ toString width ++ ":" ++
    toString height ++ ":(ow-iw)/2:(oh-ih)/2"

/-- What `normalize_video_fps` does to the clip: pass it through as a byte
copy (`shutil.copy`), or re-encode with an `fps=target` filter plus the
optional letterbox filter. -/
inductive NormalizeAction where
  | copy
  | reencode (fps : ℚ) (vfilters : List String)
deriving DecidableEq, Repr

/-- `VideoBuilder.normalize_video_fps` (decision structure).  `probe` is the
outcome of the internal `get_video_fps` probe of the input clip.  Mirrors
`if abs(current_fps - target_fps) < 0.5 and not target_resolution: copy`
and otherwise the re-encode branch with
`filters = [fps=target] (+ scale/pad)`. -/
def normalize_video_fps (probe : Except String ℚ) (target_fps : ℚ)
    (target_resolution : Option (Nat × Nat)) : NormalizeAction :=
  let current_fps := get_video_fps probe
  if |current_fps - target_fps| < 1/2 ∧ target_resolution = none then
    .copy
  else
    .reencode target_fps
      (match target_resolution with
       | some (w, h) => [letterboxFilter w h]
       | none => [])

/-! ## Segment splicer (`VideoBuilder.insert_segment`) -/

/-- Outcomes of the external invocations made by `insert_segment`.
`afterCmd` is the result of the "after"-segment extraction, which the code
runs with `check=False` (its exit status is never consulted);
`afterFileBig` is the value of `after_clip.exists() and
after_clip.stat().st_size > 1000` after that command ran. -/
structure SpliceEnv where
  beforeCmd : Except String Unit
  afterCmd : Except String Unit
  afterFileBig : Bool
  normalizeCmd : Except String Unit
  concatCmd : Except String Unit

/-- One line of the concat list written by `insert_segment`. -/
inductive SegEntry where
  | before
  | normalized
  | after
deriving DecidableEq, Repr

/-- Observable result of a successful `insert_segment` call: whether the
"before" extraction ran, whether the "after" extraction was attempted, and
the segments named in the concat list, in order. -/
structure SplicePlan where
  beforeExtracted : Bool
  afterAttempted : Bool
  entries : List SegEntry
deriving DecidableEq, Repr

/-- `buffered_start_frame = max(0, int(start_time*fps) -
int(buffer_seconds*fps))`. -/
def bufferedStartFrame (start_time buffer_seconds fps : ℚ) : Int :=
  max 0 (pyInt (start_time * fps) - pyInt (buffer_seconds * fps))

/-- `buffered_end_frame = int(end_time*fps) + int(buffer_seconds*fps)`. -/
def bufferedEndFrame (end_time buffer_seconds fps : ℚ) : Int :=
  pyInt (end_time * fps) + pyInt (buffer_seconds * fps)

/-- `VideoBuilder.insert_segment`.  The "before" extraction runs iff
`buffered_start_frame > 0` (with `check=True`: a failure is caught and
re-raised as `RuntimeError('Failed to stitch video segments: ...')`); the
"after" extraction is attempted iff `buffered_end_frame < total_frames` and
runs with `check=False` — its result (`env.afterCmd`) is never consulted —
the clip being used only when `has_after = afterAttempted and
afterFileBig`; the normalization of the processed segment always
re-encodes (a target resolution is passed) and raises
`RuntimeError('Failed to normalize video fps: ...')` on failure; the
concat list holds `before` iff `buffered_start > 0` (a comparison on the
float `buffered_start = buffered_start_frame / fps`), then the normalized
segment, then `after` iff `has_after`. -/
def insert_segment (env : SpliceEnv) (fps : ℚ) (total_frames : Int)
    (start_time end_time buffer_seconds : ℚ) : Except String SplicePlan :=
  match (if 0 < bufferedStartFrame start_time buffer_seconds fps then
      env.beforeCmd else .ok ()) with
  | .error e => .error ("Failed to stitch video segments: " ++ e)
  | .ok _ =>
    match env.normalizeCmd with
    | .error e => .error ("Failed to normalize video fps: " ++ e)
    | .ok _ =>
      match env.concatCmd with
      | .error e => .error ("Failed to stitch video segments: " ++ e)
      | .ok _ =>
        .ok { beforeExtracted :=
                decide (0 < bufferedStartFrame start_time buffer_seconds fps),
              afterAttempted :=
                decide (bufferedEndFrame end_time buffer_seconds fps <
                  total_frames),
              entries :=
                (if 0 < ((bufferedStartFrame start_time buffer_seconds fps :
                      ℚ) / fps) then [SegEntry.before] else []) ++
                  [SegEntry.normalized] ++
                  (if bufferedEndFrame end_time buffer_seconds fps <
                        total_frames ∧ env.afterFileBig = true then
                    [SegEntry.after] else []) }

/-! ## Clip concatenation (`VideoBuilder.concat_clips`) -/

/-- Error taxonomy of the spec: `ValueError` raised for bad arguments maps
to `invalidInput`, `RuntimeError` wrapping a backend failure to
`backendFailure`. -/
inductive VBError where
  | invalidInput (msg : String)
  | backendFailure (msg : String)
deriving DecidableEq, Repr

/-- Result of `concat_clips`: a plain copy of the single clip, or a concat
demuxer run over the listed clips (in order) with the given command line. -/
inductive ConcatOutcome where
  | copied (clip : String)
  | demuxed (clips : List String) (cmd : List String)
deriving DecidableEq, Repr

/-- The ffmpeg concat command built by `concat_clips`: stream copy
(`-c copy`), inputs taken from the list file. -/
def concat_cmd (listPath outputPath : String) : List String :=
  ["ffmpeg", "-y", "-f", "concat", "-safe", "0", "-i", listPath,
   "-c", "copy", outputPath]

/-- `VideoBuilder.concat_clips`.  `[]` raises
`ValueError("No clips provided for concatenation")` before any output is
produced; a single clip is copied (`shutil.copy`); otherwise the clips are
written to the concat list in input order and concatenated with `-c copy`,
a backend failure being re-raised with the stderr text. -/
def concat_clips (clips : List String) (outputPath : String)
    (cmdResult : Except String Unit) : Except VBError ConcatOutcome :=
  match clips with
  | [] => .error (.invalidInput "No clips provided for concatenation")
  | [clip] => .ok (.copied clip)
  | _ =>
    match cmdResult with
    | .ok _ => .ok (.demuxed clips (concat_cmd "concat_list_temp.txt" outputPath))
    | .error stderr =>
      .error (.backendFailure ("Failed to concatenate clips: " ++ stderr))

/-! ## Frame crop (`FrameExtractor.extract_frame_crop`) -/

/-- The crop rectangle handed to ffmpeg's `crop=w:h:x:y` filter. -/
structure CropRect where
  w : Int
  h : Int
  x : Int
  y : Int
deriving DecidableEq, Repr

/-- The percentage-box-to-pixel conversion and boundary clamping of
`extract_frame_crop`:
`crop_w = int(width * (box.width / 100))` (and similarly h, x, y), then
`crop_w = max(1, min(crop_w, width - crop_x))` and
`crop_h = max(1, min(crop_h, height - crop_y))`. -/
def extract_frame_crop_rect (width height : Nat) (box : SeedBox) : CropRect :=
  { w := max 1 (min (pyInt ((width : ℚ) * (box.width / 100)))
      ((width : Int) - pyInt ((width : ℚ) * (box.left / 100)))),
    h := max 1 (min (pyInt ((height : ℚ) * (box.height / 100)))
      ((height : Int) - pyInt ((height : ℚ) * (box.top / 100)))),
    x := pyInt ((width : ℚ) * (box.left / 100)),
    y := pyInt ((height : ℚ) * (box.top / 100)) }

/-! ## Masked compositing engine
(`VideoBuilder.apply_blur_with_mask`, `VideoBuilder.apply_pixelate_with_mask`)

The ffmpeg filter graphs built by the two methods are given a pixel-level
semantics: a video stream is a `Frame` (per-pixel luminance), `scale2ref`
scales its first input to the dimensions of its second and passes the
second through unchanged, `negate` inverts luminance, and `maskedmerge`
takes its first input where the mask is low and its second where the mask
is high (`out = first*(255-m)/255 + second*m/255`), per the ffmpeg
documentation.  The `boxblur` filter itself belongs to the black-box
backend and is an arbitrary dimension-preserving transform. -/

structure Frame where
  w : Nat
  h : Nat
  px : Nat → Nat → Nat

/-- Rescale a frame to the given dimensions (nearest-pixel sampling). -/
def scaleTo (W H : Nat) (f : Frame) : Frame :=
  { w := W, h := H, px := fun x y => f.px (x * f.w / W) (y * f.h / H) }

/-- ffmpeg `scale2ref`: scale `main` to the dimensions of `ref`; the second
output is the reference stream, passed through unchanged. -/
def scale2ref (main ref : Frame) : Frame × Frame :=
  (scaleTo ref.w ref.h main, ref)

/-- ffmpeg `negate`. -/
def negate (f : Frame) : Frame :=
  { w := f.w, h := f.h, px := fun x y => 255 - f.px x y }

/-- ffmpeg `format=gray`: the luminance model is already single-plane. -/
def formatGray (f : Frame) : Frame := f

/-- ffmpeg `maskedmerge`: per-pixel blend of the first two inputs driven by
the third; at mask 255 the second input is taken, at mask 0 the first. -/
def maskedmerge (first second mask : Frame) : Frame :=
  { w := first.w, h := first.h,
    px := fun x y =>
      (first.px x y * (255 - mask.px x y) + second.px x y * mask.px x y) / 255 }

/-- The filter graph of `apply_blur_with_mask`, node for node:
`[0:v]split[toscale][toblur]; [toblur]boxblur=S:1[blurred];
[1:v][toscale]scale2ref[mask_scaled][original_ref];
[mask_scaled]format=gray,negate[mask_inverted];
[blurred][original_ref][mask_inverted]maskedmerge[out]`. -/
def apply_blur_with_mask (boxblur : Frame → Frame) (source mask : Frame) :
    Frame :=
  let toscale := source
  let toblur := source
  let blurred := boxblur toblur
  let sr := scale2ref mask toscale
  let mask_scaled := sr.1
  let original_ref := sr.2
  let mask_inverted := negate (formatGray mask_scaled)
  maskedmerge blurred original_ref mask_inverted

/-- The filter graph of `apply_pixelate_with_mask` (the second, operative
`filter_complex` assignment), node for node:
`[1:v][0:v]scale2ref[mask_scaled][original_ref];
[original_ref]split[base][toscale];
[toscale]scale=iw/N:ih/N:flags=neighbor[small];
[small][base]scale2ref=flags=neighbor[pixelated][base_ready];
[mask_scaled]negate[mask_inverted];
[pixelated][base_ready][mask_inverted]maskedmerge[out]`. -/
def apply_pixelate_with_mask (pixel_size : Nat) (source mask : Frame) :
    Frame :=
  let sr := scale2ref mask source
  let mask_scaled := sr.1
  let original_ref := sr.2
  let base := original_ref
  let toscale := original_ref
  let small := scaleTo (toscale.w / pixel_size) (toscale.h / pixel_size) toscale
  let pr := scale2ref small base
  let pixelated := pr.1
  let base_ready := pr.2
  let mask_inverted := negate mask_scaled
  maskedmerge pixelated base_ready mask_inverted

/-- The `filter_complex` string of `apply_blur_with_mask`, as the source
builds it. -/
def blur_filter_complex (blur_strength : Nat) : String :=
  "[0:v]split[toscale][toblur];" ++
    "[toblur]boxblur=" ++ toString blur_strength ++ ":1[blurred];" ++
    "[1:v][toscale]scale2ref[mask_scaled][original_ref];" ++
    "[mask_scaled]format=gray,negate[mask_inverted];" ++
    "[blurred][original_ref][mask_inverted]maskedmerge[out]"

/-- The operative `filter_complex` string of `apply_pixelate_with_mask`
(the second assignment in the source, which supersedes the first). -/
def pixelate_filter_complex (pixel_size : Nat) : String :=
  "[1:v][0:v]scale2ref[mask_scaled][original_ref];" ++
    "[original_ref]split[base][toscale];" ++
    "[toscale]scale=iw/" ++ toString pixel_size ++ ":ih/" ++
    toString pixel_size ++ ":flags=neighbor[small];" ++
    "[small][base]scale2ref=flags=neighbor[pixelated][base_ready];" ++
    "[mask_scaled]negate[mask_inverted];" ++
    "[pixelated][base_ready][mask_inverted]maskedmerge[out]"

/-! ### Concrete instances used by witnesses and counterexamples -/

/-- A tracker environment in which every frame loads and every update
succeeds. -/
def allOkEnv : TrackEnv :=
  ⟨fun _ => true, fun _ => some (0, 0, 10, 10), 100, 100⟩

/-- A tracker environment whose updates fail from frame 3 on. -/
def failAt3Env : TrackEnv :=
  ⟨fun _ => true, fun i => if i < 3 then some (0, 0, 10, 10) else none,
   100, 100⟩

/-- A finding spanning frames 0–199 at 1 fps. -/
def longFinding : Finding := ⟨some ⟨10, 10, 20, 20⟩, 0, 199⟩

/-- A seed box, no-box finding, and a one-frame finding. -/
def seed40 : SeedBox := ⟨40, 40, 20, 20⟩

def noBoxFinding : Finding := ⟨none, 0, 0⟩

/-- Splice environment in which every invocation succeeds. -/
def allOkSplice : SpliceEnv := ⟨.ok (), .ok (), true, .ok (), .ok ()⟩

/-- Splice environment where the "after" extraction command fails and
leaves no usable file. -/
def afterFailSplice : SpliceEnv :=
  ⟨.ok (), .error "boom", false, .ok (), .ok ()⟩

/-- Concrete frames and a concrete dimension-preserving blur for the
compositing witnesses. -/
def whiteMask : Frame := ⟨3, 3, fun _ _ => 255⟩

def graySource : Frame := ⟨2, 2, fun _ _ => 100⟩

def zeroBlur : Frame → Frame := fun f => ⟨f.w, f.h, fun _ _ => 0⟩

/-! ## Helper lemmas on the tracker's index arithmetic -/

theorem startIdx_lt (stT fps : ℚ) {n : Nat} (hn : n ≠ 0) :
    startIdx stT fps n < n := by
  unfold startIdx
  generalize pyInt (stT * fps) = k
  omega

theorem startIdx_le_endIdx (stT enT fps : ℚ) (n : Nat) :
    startIdx stT fps n ≤ endIdx stT enT fps n := by
  unfold endIdx
  generalize pyInt (enT * fps) = k
  generalize startIdx stT fps n = s
  omega

/-- The loop appends at most one entry per sampled index. -/
theorem trackLoopFrom_length_le_countP (env : TrackEnv)
    (st en sk tw th : Nat) :
    ∀ (fuel i : Nat),
      (trackLoopFrom env st en sk tw th i fuel).length ≤
        (List.range' i fuel).countP
          (fun j => decide (¬((j - st) % sk ≠ 0 ∧ j ≠ en))) := by
  intro fuel
  induction fuel with
  | zero => intro i; simp [trackLoopFrom]
  | succ fuel ih =>
    intro i
    rw [List.range'_succ, List.countP_cons, trackLoopFrom]
    by_cases hskip : (i - st) % sk ≠ 0 ∧ i ≠ en
    · rw [if_pos hskip]
      exact le_trans (ih (i + 1)) (Nat.le_add_right _ _)
    · rw [if_neg hskip]
      have hp : (decide (¬((i - st) % sk ≠ 0 ∧ i ≠ en))) = true :=
        decide_eq_true hskip
      rw [hp, if_pos rfl]
      by_cases hload : env.loadOk i = false
      · rw [if_pos hload]
        exact le_trans (ih (i + 1)) (Nat.le_succ _)
      · rw [if_neg hload]
        cases hupd : env.update i with
        | none => simp
        | some b =>
          obtain ⟨tx, ty, twd, thd⟩ := b
          simpa using ih (i + 1)

/-- Among offsets `1..M` past `st`, exactly `M / sk` indices land on the
skip cadence. -/
theorem countP_mod_range' (st sk : Nat) :
    ∀ M : Nat, (List.range' (st + 1) M).countP
      (fun j => decide ((j - st) % sk = 0)) = M / sk := by
  intro M
  induction M with
  | zero => simp
  | succ M ih =>
    rw [List.range'_concat, List.countP_append, ih, Nat.succ_div]
    have harg : st + 1 + 1 * M - st = M + 1 := by omega
    simp only [List.countP_cons, List.countP_nil, harg, decide_eq_true_eq,
      Nat.zero_add]
    by_cases h : sk ∣ M + 1
    · have h0 : (M + 1) % sk = 0 := Nat.dvd_iff_mod_eq_zero.mp h
      simp [h0, h]
    · have h0 : ¬((M + 1) % sk = 0) := fun hc =>
        h (Nat.dvd_iff_mod_eq_zero.mpr hc)
      simp [h0, h]

/-- The number of sampled indices among `st+1 .. st+N` (cadence plus the
always-sampled end frame `st+N`) is at most `N / sk + 1`. -/
theorem countP_sampled_le (st N sk : Nat) :
    (List.range' (st + 1) N).countP
      (fun j => decide (¬((j - st) % sk ≠ 0 ∧ j ≠ st + N))) ≤ N / sk + 1 := by
  have hcongr : (List.range' (st + 1) N).countP
      (fun j => decide (¬((j - st) % sk ≠ 0 ∧ j ≠ st + N))) =
      (List.range' (st + 1) N).countP
        (fun j => decide ((j - st) % sk = 0) || decide (j = st + N)) := by
    apply List.countP_congr
    intro j _
    simp only [decide_eq_true_eq, Bool.or_eq_true]
    tauto
  rw [hcongr]
  cases N with
  | zero => simp
  | succ M =>
    rw [List.range'_concat, List.countP_append]
    have hinit : (List.range' (st + 1) M).countP
        (fun j => decide ((j - st) % sk = 0) || decide (j = st + (M + 1))) =
        (List.range' (st + 1) M).countP
          (fun j => decide ((j - st) % sk = 0)) := by
      apply List.countP_congr
      intro j hj
      have hjlt : j < st + 1 + M := by
        have := List.mem_range'.mp hj
        omega
      simp only [Bool.or_eq_true, decide_eq_true_eq]
      constructor
      · rintro (h | h)
        · exact h
        · omega
      · intro h; exact Or.inl h
    rw [hinit, countP_mod_range' st sk M]
    have hlast : (List.countP
        (fun j => decide ((j - st) % sk = 0) || decide (j = st + (M + 1)))
        [st + 1 + 1 * M]) ≤ 1 := by
      rw [List.countP_cons]
      simp only [List.countP_nil, Nat.zero_add]
      split <;> omega
    have hdivmono : M / sk ≤ (M + 1) / sk :=
      Nat.div_le_div_right (Nat.le_succ M)
    omega

/-- With the adaptive skip rate `max 1 (N / 100)` the loop visits at most
199 sampled indices (the worst case is `N = 199`, where the skip rate is
still 1). -/
theorem countP_sampled_budget (st N : Nat) :
    (List.range' (st + 1) N).countP
      (fun j => decide (¬((j - st) % (max 1 (N / 100)) ≠ 0 ∧ j ≠ st + N)))
      ≤ 199 := by
  set sk := max 1 (N / 100)
  have hskpos : 0 < sk := le_max_left 1 _
  by_cases h1 : sk = 1
  · have hN : N ≤ 199 := by omega
    have hlen : (List.range' (st + 1) N).countP
        (fun j => decide (¬((j - st) % sk ≠ 0 ∧ j ≠ st + N))) ≤ N := by
      have hc := List.countP_le_length
        (fun j => decide (¬((j - st) % sk ≠ 0 ∧ j ≠ st + N)))
        (l := List.range' (st + 1) N)
      simpa using hc
    omega
  · have hsk2 : 2 ≤ sk := by omega
    have hskeq : sk = N / 100 := by omega
    have hN : N ≤ 99 + sk * 100 := by omega
    have hdiv1 : N / sk ≤ (99 + sk * 100) / sk := Nat.div_le_div_right hN
    have hdiv2 : (99 + sk * 100) / sk = 99 / sk + 100 :=
      Nat.add_mul_div_left 99 100 hskpos
    have hdiv3 : 99 / sk ≤ 99 / 2 := Nat.div_le_div_left hsk2 (by norm_num)
    have hbound := countP_sampled_le st N sk
    omega

/-- When every frame loads and every update succeeds, a skip rate of 1
appends one entry per remaining index: the loop yields exactly `fuel`
entries. -/
theorem trackLoopFrom_length_allOk (env : TrackEnv)
    (hl : ∀ i, env.loadOk i = true) (hu : ∀ i, env.update i ≠ none)
    (st en tw th : Nat) :
    ∀ (fuel i : Nat), (trackLoopFrom env st en 1 tw th i fuel).length = fuel := by
  intro fuel
  induction fuel with
  | zero => intro i; simp [trackLoopFrom]
  | succ fuel ih =>
    intro i
    rw [trackLoopFrom]
    have hmod : (i - st) % 1 = 0 := Nat.mod_one _
    rw [if_neg (by simp [hmod])]
    rw [if_neg (by simp [hl i])]
    cases hupd : env.update i with
    | none => exact absurd hupd (hu i)
    | some b =>
      obtain ⟨tx, ty, twd, thd⟩ := b
      simpa using ih (i + 1)

/-! ## C1 -/

/-- **C1** (amended): for every environment, finding and frame range, a
successfully returned tracked path has length at most 200 — not 101: the
integer skip rate `max(1, (endFrame-startFrame) // 100)` stays 1 up to a
range of 199 frames, so the seed entry plus the sampled entries reach 200
elements in the worst case (range length 199), and never more. -/
theorem track_finding_length_le_200 (env : TrackEnv) (finding : Finding)
    (numFrames : Nat) (fps : ℚ) (path : List PathEntry)
    (h : track_finding env finding numFrames fps = .ok path) :
    path.length ≤ 200 := by
  unfold track_finding at h
  cases hbox : finding.box with
  | none =>
    rw [hbox] at h
    simp only [Except.ok.injEq] at h
    subst h
    simp
  | some seed =>
    rw [hbox] at h
    dsimp only at h
    by_cases hlt : startIdx finding.startTime fps numFrames < numFrames
    · rw [if_pos hlt] at h
      by_cases hload :
          env.loadOk (startIdx finding.startTime fps numFrames) = true
      · rw [if_pos hload] at h
        simp only [Except.ok.injEq] at h
        subst h
        set st := startIdx finding.startTime fps numFrames with hst
        set en := endIdx finding.startTime finding.endTime fps numFrames
          with hen'
        have hle : st ≤ en := startIdx_le_endIdx _ _ _ _
        have hen : st + (en - st) = en := by omega
        have hcount := trackLoopFrom_length_le_countP env st en
          (skipRate st en) (trackW env.imgW) (trackH env.imgW env.imgH)
          (en - st) (st + 1)
        have hb := countP_sampled_budget st (en - st)
        rw [hen] at hb
        have hskdef : skipRate st en = max 1 ((en - st) / 100) := rfl
        simp only [← hskdef] at hb
        simp only [List.length_cons]
        omega
      · rw [if_neg hload] at h
        simp only [Except.ok.injEq] at h
        subst h
        simp
    · rw [if_neg hlt] at h
      exact absurd h (by simp)

/-- Witness for C1: a finding without a seed box yields the empty path, of
length at most 200. -/
theorem track_finding_length_le_200_witness :
    ([] : List PathEntry).length ≤ 200 :=
  track_finding_length_le_200 allOkEnv noBoxFinding 0 1 [] rfl

/-- Counterexample to C1 as stated: over the 199-frame range `[0s, 199s]`
at 1 fps with every load and update succeeding, the returned path has 200
entries, exceeding the claimed bound of 101. -/
theorem track_finding_length_201_counterexample :
    (track_finding allOkEnv longFinding 200 1).map List.length = .ok 200 ∧
      101 < 200 := by
  constructor
  · have hst : startIdx 0 1 200 = 0 := by
      norm_num [startIdx, pyInt]
    have hen : endIdx 0 199 1 200 = 199 := by
      norm_num [endIdx, startIdx, pyInt]
      rfl
    have hskip : skipRate 0 199 = 1 := by norm_num [skipRate]
    have hlen := trackLoopFrom_length_allOk allOkEnv (fun _ => rfl)
      (fun i => by simp [allOkEnv]) 0 199 (trackW 100) (trackH 100 100) 199 1
    unfold track_finding
    dsimp only [longFinding]
    rw [hst, hen, hskip]
    rw [if_pos (show (0 : Nat) < 200 by norm_num)]
    rw [if_pos (show allOkEnv.loadOk 0 = true from rfl)]
    simp only [show allOkEnv.imgW = 100 from rfl,
      show allOkEnv.imgH = 100 from rfl, Except.map, List.length_cons]
    norm_num
    rw [hlen]
  · norm_num

/-! ## C5 -/

/-- **C5**: when the finding has a seed box, frames exist, and the frame at
the computed start index loads, the tracked path is non-empty and its first
element is exactly the seed box in original, unscaled percentage
coordinates, tagged with the computed start frame index. -/
theorem track_finding_first_entry_seed (env : TrackEnv) (seed : SeedBox)
    (stT enT fps : ℚ) (n : Nat) (hn : n ≠ 0)
    (hload : env.loadOk (startIdx stT fps n) = true) :
    ∃ rest, track_finding env ⟨some seed, stT, enT⟩ n fps =
      .ok ({ frame := startIdx stT fps n, top := seed.top, left := seed.left,
             width := seed.width, height := seed.height } :: rest) := by
  refine ⟨trackLoopFrom env (startIdx stT fps n) (endIdx stT enT fps n)
    (skipRate (startIdx stT fps n) (endIdx stT enT fps n))
    (trackW env.imgW) (trackH env.imgW env.imgH)
    (startIdx stT fps n + 1)
    (endIdx stT enT fps n - startIdx stT fps n), ?_⟩
  unfold track_finding
  dsimp only
  rw [if_pos (startIdx_lt stT fps hn), if_pos hload]

/-- Witness for C5: a range shorter than one frame (`[0s, 0s]` at 30 fps
over a single frame) still yields the seed as the first (and only forced)
entry. -/
theorem track_finding_first_entry_seed_witness :
    ∃ rest, track_finding allOkEnv ⟨some seed40, 0, 0⟩ 1 30 =
      .ok ({ frame := 0, top := 40, left := 40, width := 20,
             height := 20 } :: rest) := by
  have h := track_finding_first_entry_seed allOkEnv seed40 0 0 30 1
    (by norm_num) rfl
  have hst : startIdx 0 30 1 = 0 := by norm_num [startIdx, pyInt]
  rw [hst] at h
  exact h

/-! ## C9 -/

/-- If a sampled frame `j` loads and its tracker update fails, the loop
returns exactly what it had accumulated strictly before `j` (the `break`
path): no retry, no re-seeding, no exception. -/
theorem trackLoopFrom_stop_at (env : TrackEnv) (st en sk tw th : Nat)
    (j : Nat) (hsamp : ¬((j - st) % sk ≠ 0 ∧ j ≠ en))
    (hload : env.loadOk j = true) (hupd : env.update j = none) :
    ∀ (fuel i : Nat), i ≤ j → j < i + fuel →
      trackLoopFrom env st en sk tw th i fuel =
        trackLoopFrom env st en sk tw th i (j - i) := by
  intro fuel
  induction fuel with
  | zero => intro i h1 h2; omega
  | succ fuel ih =>
    intro i h1 h2
    rcases Nat.eq_or_lt_of_le h1 with heq | hlt
    · subst heq
      rw [Nat.sub_self]
      show trackLoopFrom env st en sk tw th i (fuel + 1) = []
      rw [trackLoopFrom, if_neg hsamp, if_neg (by simp [hload]), hupd]
    · have hji : j - i = (j - (i + 1)) + 1 := by omega
      have ihh := ih (i + 1) (by omega) (by omega)
      rw [hji]
      rw [trackLoopFrom, trackLoopFrom]
      by_cases hs : (i - st) % sk ≠ 0 ∧ i ≠ en
      · rw [if_pos hs, if_pos hs, ihh]
      · rw [if_neg hs, if_neg hs]
        by_cases hl : env.loadOk i = false
        · rw [if_pos hl, if_pos hl, ihh]
        · rw [if_neg hl, if_neg hl]
          cases hu : env.update i with
          | none => rfl
          | some b =>
            obtain ⟨a1, a2, a3, a4⟩ := b
            rw [ihh]

/-- **C9**: when the tracker update fails at a sampled frame `j` that
loaded, `track_finding` stops immediately and returns — as a normal `.ok`
value, not an exception — the seed entry followed by exactly the entries
accumulated for sampled frames strictly before `j`. -/
theorem track_finding_stops_on_update_failure (env : TrackEnv)
    (seed : SeedBox) (stT enT fps : ℚ) (n j : Nat)
    (hn : n ≠ 0) (hload0 : env.loadOk (startIdx stT fps n) = true)
    (hj1 : startIdx stT fps n + 1 ≤ j) (hj2 : j ≤ endIdx stT enT fps n)
    (hsamp : (j - startIdx stT fps n) %
        skipRate (startIdx stT fps n) (endIdx stT enT fps n) = 0 ∨
      j = endIdx stT enT fps n)
    (hloadj : env.loadOk j = true) (hupd : env.update j = none) :
    track_finding env ⟨some seed, stT, enT⟩ n fps =
      .ok ({ frame := startIdx stT fps n, top := seed.top, left := seed.left,
             width := seed.width, height := seed.height } ::
        trackLoopFrom env (startIdx stT fps n) (endIdx stT enT fps n)
          (skipRate (startIdx stT fps n) (endIdx stT enT fps n))
          (trackW env.imgW) (trackH env.imgW env.imgH)
          (startIdx stT fps n + 1) (j - (startIdx stT fps n + 1))) := by
  unfold track_finding
  dsimp only
  rw [if_pos (startIdx_lt stT fps hn), if_pos hload0]
  have hle := startIdx_le_endIdx stT enT fps n
  have hstop := trackLoopFrom_stop_at env (startIdx stT fps n)
    (endIdx stT enT fps n)
    (skipRate (startIdx stT fps n) (endIdx stT enT fps n))
    (trackW env.imgW) (trackH env.imgW env.imgH) j
    (by tauto) hloadj hupd
    (endIdx stT enT fps n - startIdx stT fps n) (startIdx stT fps n + 1)
    hj1 (by omega)
  rw [hstop]

/-- Witness for C9: updates fail from frame 3 on; over frames 0–9 the
returned path is the seed entry plus the loop run only up to frame 3. -/
theorem track_finding_stops_on_update_failure_witness :
    track_finding failAt3Env ⟨some seed40, 0, 9⟩ 10 1 =
      .ok ({ frame := 0, top := 40, left := 40, width := 20,
             height := 20 } ::
        trackLoopFrom failAt3Env 0 9 1 (trackW 100) (trackH 100 100) 1 2) := by
  have hst : startIdx 0 1 10 = 0 := by norm_num [startIdx, pyInt]
  have hen : endIdx 0 9 1 10 = 9 := by
    norm_num [endIdx, startIdx, pyInt]
    rfl
  have hskip : skipRate 0 9 = 1 := by norm_num [skipRate]
  have h := track_finding_stops_on_update_failure failAt3Env seed40 0 9 1 10 3
    (by norm_num) rfl
    (by rw [hst]; norm_num) (by rw [hen]; norm_num)
    (by rw [hst, hen, hskip]; norm_num) rfl rfl
  rw [hst, hen, hskip] at h
  exact h

/-! ## C2 and C10: the segment splicer -/

/-- Evaluation of `insert_segment` when the checked invocations succeed:
the "before" segment is extracted (and listed) iff the buffered start frame
is positive, the "after" extraction is attempted iff the buffered end
frame is strictly below the total frame count, and a missing segment is
omitted from the concat list rather than failing. -/
theorem insert_segment_eval (env : SpliceEnv) (fps : ℚ) (total_frames : Int)
    (start_time end_time buffer_seconds : ℚ) (hfps : 0 < fps)
    (hb : env.beforeCmd = .ok ()) (hn : env.normalizeCmd = .ok ())
    (hc : env.concatCmd = .ok ()) :
    insert_segment env fps total_frames start_time end_time buffer_seconds =
      .ok { beforeExtracted :=
              decide (0 < bufferedStartFrame start_time buffer_seconds fps),
            afterAttempted :=
              decide (bufferedEndFrame end_time buffer_seconds fps <
                total_frames),
            entries :=
              (if 0 < bufferedStartFrame start_time buffer_seconds fps then
                  [SegEntry.before] else []) ++
                [SegEntry.normalized] ++
                (if bufferedEndFrame end_time buffer_seconds fps <
                      total_frames ∧ env.afterFileBig = true then
                  [SegEntry.after] else []) } := by
  unfold insert_segment
  rw [hb, hn, hc]
  have hdiv : (0 < ((bufferedStartFrame start_time buffer_seconds fps : ℚ) /
      fps)) ↔ 0 < bufferedStartFrame start_time buffer_seconds fps := by
    rw [lt_div_iff₀ hfps, zero_mul, Int.cast_pos]
  simp only [hdiv, ite_self]

/-- **C2** (amended): with a positive frame rate and the checked backend
invocations succeeding, the "before" segment is extracted if and only if
the buffered start frame is greater than 0, and the "after" segment is
extracted if and only if the buffered end frame is strictly less than
`totalFrameCount` (not `totalFrameCount - 1` as claimed); when the range
touches the stream's start or end, the corresponding segment is omitted
from the concatenation rather than causing a failure. -/
theorem insert_segment_boundary_conditions (env : SpliceEnv) (fps : ℚ)
    (total_frames : Int) (start_time end_time buffer_seconds : ℚ)
    (hfps : 0 < fps) (hb : env.beforeCmd = .ok ())
    (hn : env.normalizeCmd = .ok ()) (hc : env.concatCmd = .ok ()) :
    insert_segment env fps total_frames start_time end_time buffer_seconds =
      .ok { beforeExtracted :=
              decide (0 < bufferedStartFrame start_time buffer_seconds fps),
            afterAttempted :=
              decide (bufferedEndFrame end_time buffer_seconds fps <
                total_frames),
            entries :=
              (if 0 < bufferedStartFrame start_time buffer_seconds fps then
                  [SegEntry.before] else []) ++
                [SegEntry.normalized] ++
                (if bufferedEndFrame end_time buffer_seconds fps <
                      total_frames ∧ env.afterFileBig = true then
                  [SegEntry.after] else []) } :=
  insert_segment_eval env fps total_frames start_time end_time buffer_seconds
    hfps hb hn hc

/-- Witness for C2: splicing `[0s, 3s]` into a 10-frame 1 fps stream with a
one-second buffer extracts both boundary segments; the returned plan is
computed concretely. -/
theorem insert_segment_boundary_conditions_witness :
    insert_segment allOkSplice 1 10 2 3 1 =
      .ok { beforeExtracted := true, afterAttempted := true,
            entries := [SegEntry.before, SegEntry.normalized,
              SegEntry.after] } := by
  have h := insert_segment_boundary_conditions allOkSplice 1 10 2 3 1
    (by norm_num) rfl rfl rfl
  have hbs : bufferedStartFrame 2 1 1 = 1 := by
    norm_num [bufferedStartFrame, pyInt]
  have hbe : bufferedEndFrame 3 1 1 = 4 := by
    norm_num [bufferedEndFrame, pyInt]
  rw [hbs, hbe] at h
  simpa [allOkSplice] using h

/-- Counterexample to C2 as stated: with 10 total frames and a buffered end
frame of 9, the code extracts (and concatenates) the "after" segment even
though `9 < 10 - 1` is false — the code's condition is
`buffered_end_frame < total_frames`, not `< total_frames - 1`. -/
theorem insert_segment_after_condition_counterexample :
    insert_segment allOkSplice 1 10 0 9 0 =
      .ok { beforeExtracted := false, afterAttempted := true,
            entries := [SegEntry.normalized, SegEntry.after] } ∧
      ¬((9 : Int) < 10 - 1) := by
  constructor
  · have h := insert_segment_eval allOkSplice 1 10 0 9 0
      (by norm_num) rfl rfl rfl
    have hbs : bufferedStartFrame 0 0 1 = 0 := by
      norm_num [bufferedStartFrame, pyInt]
    have hbe : bufferedEndFrame 9 0 1 = 9 := by
      norm_num [bufferedEndFrame, pyInt]
    rw [hbs, hbe] at h
    simpa [allOkSplice] using h
  · norm_num

/-- **C10**: a failure of the "after" extraction invocation does not raise
(`check=False`: its exit status is never consulted), and when the after
file is missing or too small the stitched output is assembled without the
after segment — the tail of the original video is silently dropped. -/
theorem insert_segment_after_failure_silent (env : SpliceEnv) (fps : ℚ)
    (total_frames : Int) (start_time end_time buffer_seconds : ℚ)
    (e : String) (hfps : 0 < fps) (hb : env.beforeCmd = .ok ())
    (hn : env.normalizeCmd = .ok ()) (hc : env.concatCmd = .ok ())
    (_hafter : env.afterCmd = .error e) (hbig : env.afterFileBig = false)
    (hatt : bufferedEndFrame end_time buffer_seconds fps < total_frames) :
    insert_segment env fps total_frames start_time end_time buffer_seconds =
      .ok { beforeExtracted :=
              decide (0 < bufferedStartFrame start_time buffer_seconds fps),
            afterAttempted := true,
            entries :=
              (if 0 < bufferedStartFrame start_time buffer_seconds fps then
                  [SegEntry.before] else []) ++ [SegEntry.normalized] } ∧
      SegEntry.after ∉
        ((if 0 < bufferedStartFrame start_time buffer_seconds fps then
            [SegEntry.before] else []) ++ [SegEntry.normalized]) := by
  constructor
  · have h := insert_segment_eval env fps total_frames start_time end_time
      buffer_seconds hfps hb hn hc
    rw [h]
    simp [hbig, hatt]
  · simp only [List.mem_append, List.mem_singleton]
    rintro (hmem | hmem)
    · split at hmem <;> simp_all
    · exact SegEntry.noConfusion hmem

/-- Witness for C10: the after command fails (`.error "boom"`), no usable
after file exists, yet the splice succeeds and the concat list silently
lacks the after segment. -/
theorem insert_segment_after_failure_silent_witness :
    (insert_segment afterFailSplice 1 10 0 5 0 =
      .ok { beforeExtracted := false, afterAttempted := true,
            entries := [SegEntry.normalized] } ∧
      SegEntry.after ∉ ([] ++ [SegEntry.normalized] : List SegEntry)) := by
  have h := insert_segment_after_failure_silent afterFailSplice 1 10 0 5 0
    "boom" (by norm_num) rfl rfl rfl rfl rfl
    (by norm_num [bufferedEndFrame, pyInt])
  have hbs : bufferedStartFrame 0 0 1 = 0 := by
    norm_num [bufferedStartFrame, pyInt]
  rw [hbs] at h
  simpa using h

/-! ## C3: backend-failure propagation -/

/-- **C3** (amended): backend failures in most operations are surfaced as
errors carrying the backend's diagnostic text (here witnessed by
single-frame extraction), but two exceptions swallow the failure: a failed
frame-rate probe silently yields the substitute frame rate 30, and a failed
audio extraction silently yields the empty result `none`. -/
theorem backend_failure_surfacing (e outputPath : String) :
    get_video_fps (.error e) = 30 ∧
    extract_audio true outputPath (.error e) = none ∧
    extract_single_frame outputPath (.error e) =
      .error ("Failed to extract frame: " ++ e) :=
  ⟨rfl, rfl, rfl⟩

/-- Counterexample to C3 as stated: a failed frame-rate probe is replaced by
the default 30 (an ordinary return value, not an error), and a failed audio
extraction yields `none` — both backend failures are swallowed. -/
theorem backend_failure_swallowed_counterexample :
    get_video_fps (.error "ffprobe exited with status 1") = 30 ∧
    extract_audio true "audio.aac" (.error "ffmpeg exited with status 1") =
      none :=
  ⟨rfl, rfl⟩

/-! ## C6: the normalizer -/

/-- **C6**: `normalize_video_fps` passes the clip through as a byte copy
exactly when the probed frame rate is within 0.5 fps of the target and no
target resolution is requested; otherwise it re-encodes at the exact target
frame rate, adding the letterbox (scale-and-center-pad) filter when a
target resolution is supplied. -/
theorem normalize_copy_iff (cur target : ℚ) (res : Option (Nat × Nat)) :
    (normalize_video_fps (.ok cur) target res = .copy ↔
      |cur - target| < 1/2 ∧ res = none) ∧
    (¬(|cur - target| < 1/2 ∧ res = none) →
      normalize_video_fps (.ok cur) target res =
        .reencode target
          (match res with
           | some (w, h) => [letterboxFilter w h]
           | none => [])) := by
  unfold normalize_video_fps get_video_fps
  by_cases h : |cur - target| < 1/2 ∧ res = none
  · rw [if_pos h]
    exact ⟨⟨fun _ => h, fun _ => rfl⟩, fun hc => absurd h hc⟩
  · rw [if_neg h]
    exact ⟨⟨fun hr => absurd hr (by simp), fun hc => absurd hc h⟩,
      fun _ => rfl⟩

/-- Witness for C6: a 25 fps clip normalized to 30 fps at 1920×1080 is
re-encoded with the exact target rate and the letterbox filter. -/
theorem normalize_copy_iff_witness :
    normalize_video_fps (.ok 25) 30 (some (1920, 1080)) =
      .reencode 30 [letterboxFilter 1920 1080] :=
  (normalize_copy_iff 25 30 (some (1920, 1080))).2
    (by rintro ⟨h, hc⟩; cases hc)

/-! ## C7: clip concatenation -/

/-- **C7**: `concat_clips` rejects an empty list with the invalid-input
error before producing any output; returns a single clip as a plain copy
(no re-encode, no failure); and for two or more clips runs the concat
demuxer over the clips in input order with a lossless stream copy
(`-c copy`). -/
theorem concat_clips_contract (outputPath : String)
    (cmdResult : Except String Unit) :
    (concat_clips [] outputPath cmdResult =
      .error (.invalidInput "No clips provided for concatenation")) ∧
    (∀ c : String, concat_clips [c] outputPath cmdResult =
      .ok (.copied c)) ∧
    (∀ (c₁ c₂ : String) (cs : List String),
      concat_clips (c₁ :: c₂ :: cs) outputPath (.ok ()) =
        .ok (.demuxed (c₁ :: c₂ :: cs)
          ["ffmpeg", "-y", "-f", "concat", "-safe", "0", "-i",
           "concat_list_temp.txt", "-c", "copy", outputPath])) :=
  ⟨rfl, fun _ => rfl, fun _ _ _ => rfl⟩

/-! ## C8: frame crop bounds -/

theorem pyInt_of_nonneg {q : ℚ} (h : 0 ≤ q) : pyInt q = ⌊q⌋ := by
  unfold pyInt
  rw [if_neg (not_lt.mpr h)]

/-- Along one axis: with `0 ≤ p < 100` the converted offset stays at most
`d - 1`, so the clamped extent fits: `offset + extent ≤ d`. -/
theorem crop_dim_bound (d : Nat) (p q : ℚ) (hd : 1 ≤ d) (hp0 : 0 ≤ p)
    (hp : p < 100) :
    pyInt ((d : ℚ) * (p / 100)) +
      max 1 (min (pyInt ((d : ℚ) * (q / 100)))
        ((d : Int) - pyInt ((d : ℚ) * (p / 100)))) ≤ (d : Int) := by
  have hdq : (0 : ℚ) < (d : ℚ) := by
    exact_mod_cast Nat.lt_of_lt_of_le Nat.zero_lt_one hd
  have hnn : (0 : ℚ) ≤ (d : ℚ) * (p / 100) :=
    mul_nonneg (le_of_lt hdq) (div_nonneg hp0 (by norm_num))
  have hlt : (d : ℚ) * (p / 100) < (d : ℚ) := by
    have h1 : p / 100 < 1 := (div_lt_one (by norm_num)).mpr hp
    calc (d : ℚ) * (p / 100) < (d : ℚ) * 1 :=
          mul_lt_mul_of_pos_left h1 hdq
      _ = (d : ℚ) := mul_one _
  have hx0 : 0 ≤ pyInt ((d : ℚ) * (p / 100)) := by
    rw [pyInt_of_nonneg hnn]
    exact Int.floor_nonneg.mpr hnn
  have hxlt : pyInt ((d : ℚ) * (p / 100)) < (d : Int) := by
    rw [pyInt_of_nonneg hnn, Int.floor_lt]
    push_cast
    exact hlt
  omega

/-- **C8** (amended): for every crop box with percentage fields in `[0,100]`
and `left < 100`, `top < 100`, the converted and clamped crop rectangle
lies entirely within the frame bounds.  (At `left = 100` or `top = 100` the
`max(1, ...)` clamp pushes the rectangle one pixel past the frame edge.) -/
theorem extract_frame_crop_in_bounds (width height : Nat) (box : SeedBox)
    (hw : 1 ≤ width) (hh : 1 ≤ height)
    (hl0 : 0 ≤ box.left) (hl : box.left < 100)
    (ht0 : 0 ≤ box.top) (ht : box.top < 100)
    (_hbw : 0 ≤ box.width ∧ box.width ≤ 100)
    (_hbh : 0 ≤ box.height ∧ box.height ≤ 100) :
    (extract_frame_crop_rect width height box).x +
        (extract_frame_crop_rect width height box).w ≤ (width : Int) ∧
    (extract_frame_crop_rect width height box).y +
        (extract_frame_crop_rect width height box).h ≤ (height : Int) := by
  dsimp only [extract_frame_crop_rect]
  exact ⟨crop_dim_bound width box.left box.width hw hl0 hl,
    crop_dim_bound height box.top box.height hh ht0 ht⟩

/-- Witness for C8: the spec's concrete case — crop box
`{top:0, left:0, width:50, height:50}` on a 1000×800 frame yields the
500×400 rectangle at the origin, inside the frame bounds. -/
theorem extract_frame_crop_in_bounds_witness :
    extract_frame_crop_rect 1000 800 ⟨0, 0, 50, 50⟩ =
      { w := 500, h := 400, x := 0, y := 0 } ∧
    ((extract_frame_crop_rect 1000 800 ⟨0, 0, 50, 50⟩).x +
        (extract_frame_crop_rect 1000 800 ⟨0, 0, 50, 50⟩).w ≤ (1000 : Int) ∧
      (extract_frame_crop_rect 1000 800 ⟨0, 0, 50, 50⟩).y +
        (extract_frame_crop_rect 1000 800 ⟨0, 0, 50, 50⟩).h ≤ (800 : Int)) :=
  ⟨by norm_num [extract_frame_crop_rect, pyInt, CropRect.mk.injEq],
    extract_frame_crop_in_bounds 1000 800 ⟨0, 0, 50, 50⟩
      (by norm_num) (by norm_num) (by norm_num) (by norm_num)
      (by norm_num) (by norm_num) (by norm_num) (by norm_num)⟩

/-- Counterexample to C8 as stated: the box
`{top:0, left:100, width:50, height:50}` has all fields in `[0,100]`, yet on
a 1000×800 frame the crop becomes `x = 1000`, `w = max(1, min(500, 0)) = 1`,
and `x + w = 1001` exceeds the frame width. -/
theorem extract_frame_crop_out_of_bounds_counterexample :
    ¬((extract_frame_crop_rect 1000 800 ⟨0, 100, 50, 50⟩).x +
        (extract_frame_crop_rect 1000 800 ⟨0, 100, 50, 50⟩).w ≤
      (1000 : Int)) := by
  norm_num [extract_frame_crop_rect, pyInt]

/-! ## C4: masked compositing -/

/-- **C4**: in both filter graphs the mask stream is the `scale2ref` input
that gets rescaled — to the source's exact dimensions — while the source is
the untouched reference; the rescaled mask is negated before `maskedmerge`,
so a white (255) mask pixel receives the effect (blur, resp. the
downscale-then-upscale mosaic) and a black (0) mask pixel keeps the
unmodified source. -/
theorem masked_effect_alignment_and_polarity (boxblur : Frame → Frame)
    (source mask : Frame) (pixel_size x y : Nat)
    (hblur : ∀ f, (boxblur f).w = f.w ∧ (boxblur f).h = f.h) :
    (scale2ref mask source).1.w = source.w ∧
    (scale2ref mask source).1.h = source.h ∧
    (scale2ref mask source).2 = source ∧
    (apply_blur_with_mask boxblur source mask).w = source.w ∧
    (apply_blur_with_mask boxblur source mask).h = source.h ∧
    ((scaleTo source.w source.h mask).px x y = 255 →
      (apply_blur_with_mask boxblur source mask).px x y =
        (boxblur source).px x y) ∧
    ((scaleTo source.w source.h mask).px x y = 0 →
      (apply_blur_with_mask boxblur source mask).px x y = source.px x y) ∧
    (apply_pixelate_with_mask pixel_size source mask).w = source.w ∧
    (apply_pixelate_with_mask pixel_size source mask).h = source.h ∧
    ((scaleTo source.w source.h mask).px x y = 255 →
      (apply_pixelate_with_mask pixel_size source mask).px x y =
        (scaleTo source.w source.h
          (scaleTo (source.w / pixel_size) (source.h / pixel_size)
            source)).px x y) ∧
    ((scaleTo source.w source.h mask).px x y = 0 →
      (apply_pixelate_with_mask pixel_size source mask).px x y =
        source.px x y) := by
  refine ⟨rfl, rfl, rfl, (hblur source).1, (hblur source).2, ?_, ?_, rfl,
    rfl, ?_, ?_⟩
  · intro hm
    dsimp only [apply_blur_with_mask, scale2ref, scaleTo, negate,
      formatGray, maskedmerge]
    dsimp only [scaleTo] at hm
    rw [hm]
    simp [Nat.mul_div_cancel]
  · intro hm
    dsimp only [apply_blur_with_mask, scale2ref, scaleTo, negate,
      formatGray, maskedmerge]
    dsimp only [scaleTo] at hm
    rw [hm]
    simp [Nat.mul_div_cancel]
  · intro hm
    dsimp only [apply_pixelate_with_mask, scale2ref, scaleTo, negate,
      maskedmerge]
    dsimp only [scaleTo] at hm
    rw [hm]
    simp [Nat.mul_div_cancel]
  · intro hm
    dsimp only [apply_pixelate_with_mask, scale2ref, scaleTo, negate,
      maskedmerge]
    dsimp only [scaleTo] at hm
    rw [hm]
    simp [Nat.mul_div_cancel]

/-- Witness for C4: with an all-white mask, a concrete dimension-preserving
blur, and a concrete source, the mask is rescaled to the source's
dimensions, the source passes through `scale2ref` untouched, and the
blur-graph output takes the blurred pixel. -/
theorem masked_effect_alignment_and_polarity_witness :
    (scale2ref whiteMask graySource).1.w = graySource.w ∧
    (scale2ref whiteMask graySource).2 = graySource ∧
    (apply_blur_with_mask zeroBlur graySource whiteMask).px 0 0 =
      (zeroBlur graySource).px 0 0 :=
  ⟨(masked_effect_alignment_and_polarity zeroBlur graySource whiteMask 4 0 0
      (fun _ => ⟨rfl, rfl⟩)).1,
    (masked_effect_alignment_and_polarity zeroBlur graySource whiteMask 4 0 0
      (fun _ => ⟨rfl, rfl⟩)).2.2.1,
    (masked_effect_alignment_and_polarity zeroBlur graySource whiteMask 4 0 0
      (fun _ => ⟨rfl, rfl⟩)).2.2.2.2.2.1 rfl⟩

end VidMod
